import Mathlib

/-!
Verification development for the lark-message-watcher bot (`src/main.py`).

The Python source is shallowly embedded: pure helpers become Lean
functions; the mutable dictionary store used by `os.environ.copy()` and
the child-process environment becomes an explicit heap of string maps;
external effects (the child process, the chat transport) are modelled at
their boundary by explicit behaviour records and event traces; fallible
Python code returns `Except`.
-/

/-- A decoded Python value, as produced by `json.loads`.  JSON numbers are
restricted to integers (the only numerals the claims need); duplicate keys
of a JSON object are already resolved by the parser, so `obj` carries an
association list without duplicates and lookup takes the first hit. -/
inductive PyValue where
  | null : PyValue
  | bool : Bool → PyValue
  | num : Int → PyValue
  | str : String → PyValue
  | arr : List PyValue → PyValue
  | obj : List (String × PyValue) → PyValue

/-- The Python exceptions the embedded fragment can raise. -/
inductive PyErr where
  | attributeError : PyErr
  | typeError : PyErr
  | timeoutExpired : PyErr
  | osError : PyErr
  deriving Repr, DecidableEq

/-- models Python `dict.get(k, dflt)` on the association list of a parsed
JSON object. -/
def pyDictGet (kvs : List (String × PyValue)) (k : String) (dflt : PyValue) :
    PyValue :=
  match kvs with
  | [] => dflt
  | (k', v) :: rest => if k' = k then v else pyDictGet rest k dflt

/-- models `_extract_text(content_raw)` (src/main.py lines 55-64) over the
`json.loads` outcome of the raw content string.  `none` models both the
empty string (the early `return ""`, and `json.loads("")` would raise
anyway) and a `json.JSONDecodeError` (caught, `return ""`).  A payload
that decodes to a JSON object reaches `content.get("text", "")`; any
other decoded value has no `.get` attribute, so Python raises an
uncaught `AttributeError`. -/
def _extract_text (content : Option PyValue) : Except PyErr PyValue :=
  match content with
  | none => .ok (.str "")
  | some (.obj kvs) => .ok (pyDictGet kvs "text" (.str ""))
  | some _ => .error .attributeError

/-- Python truthiness (`if not text:`) for the embedded values. -/
def pyTruthy : PyValue → Bool
  | .null => false
  | .bool b => b
  | .num n => n ≠ 0
  | .str s => s ≠ ""
  | .arr l => !l.isEmpty
  | .obj l => !l.isEmpty

/-!
Regular-expression engine for the subset of Python `re` syntax the
program's patterns use: literal characters, the escapes `\\` (a literal
backslash) and `\s` (whitespace class), `.`, the greedy quantifier `+`,
and a leading `^` anchor.  `re.compile` is modelled by `re_compile`
(rejecting patterns outside the subset) and `pattern.search` by
`pySearch`, which scans candidate start positions left to right and at
each position explores greedy matches first, exactly the order Python's
backtracking engine uses, so a returned span is the first (leftmost)
match span of the search.
-/

/-- a single-character matcher of the engine. -/
inductive RAtom where
  | lit : Char → RAtom
  | ws : RAtom
  | dot : RAtom
  deriving Repr, DecidableEq

/-- a pattern token: a bare atom, or an atom under a greedy `+`. -/
inductive RTok where
  | atom : RAtom → RTok
  | plus : RAtom → RTok
  deriving Repr, DecidableEq

/-- Python `\s` on ASCII input (the unicode space characters are outside
the fragment the claims exercise). -/
def pyIsSpace (c : Char) : Bool :=
  c = ' ' ∨ c = '\t' ∨ c = '\n' ∨ c = '\r' ∨ c = '\x0b' ∨ c = '\x0c'

/-- whether one atom matches one character (`.` excludes the newline, as
in Python without `DOTALL`). -/
def matchAtom : RAtom → Char → Bool
  | .lit c', c => c = c'
  | .ws, c => pyIsSpace c
  | .dot, c => c ≠ '\n'

/-- backtracking matcher: the number of characters a token list consumes
from the front of `cs`, exploring greedy alternatives first, `none` when
no alternative matches. -/
def mtoks : List RTok → List Char → Option Nat
  | [], _ => some 0
  | _ :: _, [] => none
  | RTok.atom a :: ts, c :: cs =>
      if matchAtom a c then (mtoks ts cs).map (· + 1) else none
  | RTok.plus a :: ts, c :: cs =>
      if matchAtom a c then
        match mtoks (RTok.plus a :: ts) cs with
        | some n => some (n + 1)
        | none => (mtoks ts cs).map (· + 1)
      else none

/-- tries `mtoks` at each successive start position, leftmost first, and
returns the span of the first position that matches. -/
def pySearchAux (ts : List RTok) : List Char → Option (List Char)
  | [] =>
      match mtoks ts [] with
      | some n => some (List.take n [])
      | none => none
  | c :: cs' =>
      match mtoks ts (c :: cs') with
      | some n => some ((c :: cs').take n)
      | none => pySearchAux ts cs'

/-- a compiled pattern: whether it began with the `^` anchor, and its
token list. -/
structure CPat where
  anchored : Bool
  toks : List RTok
  deriving Repr, DecidableEq

/-- models `compiled.search(s)`, returning `group(0)` of the match.  An
anchored pattern is tried at position 0 only (no `MULTILINE`). -/
def pySearch (p : CPat) (s : String) : Option String :=
  if p.anchored then
    (mtoks p.toks s.data).map (fun n => String.mk (s.data.take n))
  else
    (pySearchAux p.toks s.data).map String.mk

/-- the atom of an escape sequence: `\\` and `\s` are the supported
escapes. -/
def escAtom : Char → Option RAtom
  | '\\' => some (RAtom.lit '\\')
  | 's' => some RAtom.ws
  | _ => none

/-- metacharacters of the `re` syntax outside the supported subset (a
bare quantifier, alternation, groups, classes, anchors past position
0). -/
def isMeta (c : Char) : Bool :=
  c = '+' ∨ c = '*' ∨ c = '?' ∨ c = '(' ∨ c = ')' ∨ c = '[' ∨
    c = ']' ∨ c = '|' ∨ c = '^' ∨ c = '$'

/-- the atom of a single non-escape character. -/
def charAtom (c : Char) : RAtom :=
  if c = '.' then RAtom.dot else RAtom.lit c

/-- parses the body of a pattern into tokens; `none` for syntax outside
the supported subset. -/
def parseToks : List Char → Option (List RTok)
  | [] => some []
  | '\\' :: [] => none
  | '\\' :: c :: '+' :: rest =>
      match escAtom c with
      | none => none
      | some a => (parseToks rest).map (RTok.plus a :: ·)
  | '\\' :: c :: rest =>
      match escAtom c with
      | none => none
      | some a => (parseToks rest).map (RTok.atom a :: ·)
  | c :: '+' :: rest =>
      if isMeta c then none
      else (parseToks rest).map (RTok.plus (charAtom c) :: ·)
  | c :: rest =>
      if isMeta c then none
      else (parseToks rest).map (RTok.atom (charAtom c) :: ·)

/-- models `re.compile` on the supported subset: a leading `^` sets the
anchor flag, the remainder is parsed into tokens. -/
def re_compile (p : String) : Option CPat :=
  match p.data with
  | '^' :: rest => (parseToks rest).map (fun ts => ⟨true, ts⟩)
  | cs => (parseToks cs).map (fun ts => ⟨false, ts⟩)

/-- the default of `os.getenv("MATCH_PATTERN", r"^/run\\s+.+")`
(src/main.py line 43).  The Python raw-string literal contains TWO
backslash characters, so the eleven characters of the pattern are
`^ / r u n \ \ s + . +`. -/
def MATCH_PATTERN : String := "^/run\\\\s+.+"

/-- the default pattern as the spec states it (`^/run\s+.+`): `/run`
followed by whitespace and at least one character.  This definition
follows the spec's words, for comparison with `MATCH_PATTERN` taken from
the source. -/
def specDefaultPattern : String := "^/run\\s+.+"

/-- the compilation of the source's default `MATCH_PATTERN`: anchored,
then literals `/run`, a literal backslash, one or more `s`, one or more
non-newline characters. -/
def defaultCompiled : CPat :=
  ⟨true,
   [RTok.atom (RAtom.lit '/'), RTok.atom (RAtom.lit 'r'),
    RTok.atom (RAtom.lit 'u'), RTok.atom (RAtom.lit 'n'),
    RTok.atom (RAtom.lit '\\'), RTok.plus (RAtom.lit 's'),
    RTok.plus RAtom.dot]⟩


/-!
Environment maps and a small heap of string dictionaries.  Python
dictionaries are mutable objects; `os.environ.copy()` allocates a fresh
dictionary and the five `env[...] = ...` assignments mutate only that
fresh one.  To make this aliasing visible, dictionaries live in an
explicit heap (a list of maps addressed by index); `copy` allocates at a
fresh index and assignment updates one index.
-/

/-- an environment mapping, in insertion order (as a Python dict). -/
abbrev EnvMap := List (String × String)

/-- first-match lookup, models `d[k]` / `k in d`. -/
def envLookup (e : EnvMap) (k : String) : Option String :=
  match e with
  | [] => none
  | (k', v) :: rest => if k' = k then some v else envLookup rest k

/-- models `d[k] = v`: replaces the binding in place when present,
appends otherwise. -/
def envSet (e : EnvMap) (k v : String) : EnvMap :=
  match e with
  | [] => [(k, v)]
  | (k', v') :: rest =>
      if k' = k then (k, v) :: rest else (k', v') :: envSet rest k v

/-- models `d.setdefault(k, v)` (src/main.py line 34): keeps the
existing binding, inserts only when the key is absent. -/
def setdefault (e : EnvMap) (k v : String) : EnvMap :=
  match envLookup e k with
  | some _ => e
  | none => e ++ [(k, v)]

/-- the heap of live dictionaries; a reference is an index into
`store`. -/
structure Heap where
  store : List EnvMap

/-- reads the dictionary at reference `r` (empty for a dangling
reference). -/
def storeGet : List EnvMap → Nat → EnvMap
  | [], _ => []
  | d :: _, 0 => d
  | _ :: ds, n + 1 => storeGet ds n

/-- replaces the dictionary at reference `r`. -/
def storeSet : List EnvMap → Nat → EnvMap → List EnvMap
  | [], _, _ => []
  | _ :: ds, 0, d => d :: ds
  | e :: ds, n + 1, d => e :: storeSet ds n d

/-- reads the dictionary a reference points to. -/
def heapGet (h : Heap) (r : Nat) : EnvMap := storeGet h.store r

/-- models `d[k] = v` on the dictionary behind reference `r`. -/
def heapSet (h : Heap) (r : Nat) (k v : String) : Heap :=
  ⟨storeSet h.store r (envSet (storeGet h.store r) k v)⟩

/-- models `os.environ.copy()`: allocates a fresh dictionary holding the
same bindings and returns its (fresh) reference. -/
def heapAllocCopy (h : Heap) (r : Nat) : Heap × Nat :=
  (⟨h.store ++ [storeGet h.store r]⟩, h.store.length)

/-!
The Trigger Executor `_run_script` (src/main.py lines 67-96).
-/

/-- the `notify_payload` dictionary handed to `_run_script`: all five
keys are always present, their values may be `None` (`none` here). -/
structure Trigger where
  message_id : Option String
  chat_id : Option String
  sender_id : Option String
  text : Option String
  matched_text : Option String
  deriving Repr, DecidableEq

/-- models `x or ""` on an optional string: `None` and `""` are falsy,
anything else is itself. -/
def pyStrOr (v : Option String) : String :=
  match v with
  | none => ""
  | some s => if s == "" then "" else s

/-- boundary model of the external child process launched by
`subprocess.Popen(["bash", "-lc", SCRIPT_COMMAND], ...)`: whether the
launch raises (e.g. the shell binary missing), whether the process
completes within `SCRIPT_TIMEOUT_SEC`, and its exit code and captured
output when it does. -/
structure ProcBehavior where
  launchOk : Bool
  finishesInTime : Bool
  returncode : Int
  stdout : String
  stderr : String
  deriving Repr, DecidableEq

/-- observable events of one execution, in order of occurrence. -/
inductive REvent where
  | spawned : REvent
  | onStartedCall : REvent
  | sendMsg : String → String → REvent
  | waitBegin : REvent
  | procExited : REvent
  | timedOut : REvent
  | killed : REvent
  | drained : REvent
  deriving Repr, DecidableEq

/-- what one `_run_script` call produced: its return or raised
exception, the heap after it, the environment mapping passed to the
child process, and the ordered event trace. -/
structure RunOutput where
  result : Except PyErr (Int × String × String)
  heap : Heap
  childEnv : EnvMap
  events : List REvent

/-- models `_run_script(trigger, on_started)` (src/main.py lines
67-96).  `environRef` is the reference of `os.environ` in the heap;
`on_started` carries, for `some`, the chat messages the callback sends
when invoked (the callback used by the program is
`_send_text_to_chat`, whose only effect is such a send attempt); `proc`
is the behaviour of the launched process.  The trace records: spawn,
the `on_started()` invocation and its sends, the start of
`communicate(timeout=...)`, and then either a normal exit, or the
timeout with `process.kill()` followed by the draining
`process.communicate()` before the `TimeoutExpired` is re-raised. -/
def _run_script (trigger : Trigger)
    (on_started : Option (List (String × String)))
    (h : Heap) (environRef : Nat) (proc : ProcBehavior) : RunOutput :=
  let (h1, envRef) := heapAllocCopy h environRef
  let h2 := heapSet h1 envRef "TRIGGER_TEXT" (pyStrOr trigger.text)
  let h3 := heapSet h2 envRef "TRIGGER_CHAT_ID" (pyStrOr trigger.chat_id)
  let h4 := heapSet h3 envRef "TRIGGER_SENDER_ID" (pyStrOr trigger.sender_id)
  let h5 := heapSet h4 envRef "TRIGGER_MESSAGE_ID" (pyStrOr trigger.message_id)
  let h6 := heapSet h5 envRef "TRIGGER_MATCHED_TEXT" (pyStrOr trigger.matched_text)
  let childEnv := heapGet h6 envRef
  if proc.launchOk then
    let startEvents :=
      REvent.spawned ::
        (match on_started with
         | none => []
         | some sends =>
             REvent.onStartedCall :: sends.map (fun p => REvent.sendMsg p.1 p.2))
    if proc.finishesInTime then
      ⟨.ok (proc.returncode, proc.stdout, proc.stderr), h6, childEnv,
       startEvents ++ [REvent.waitBegin, REvent.procExited]⟩
    else
      ⟨.error .timeoutExpired, h6, childEnv,
       startEvents ++
         [REvent.waitBegin, REvent.timedOut, REvent.killed, REvent.drained]⟩
  else
    ⟨.error .osError, h6, childEnv, []⟩

/-!
The Notifier `_send_text_to_chat` (src/main.py lines 99-121) and the
orchestrating handler `_handle_message_event` (lines 124-193).
-/

/-- the send attempts `_send_text_to_chat(chat_id, text)` makes: none
when `chat_id` is `None` or empty (the `if not chat_id: return` guard),
one otherwise.  A transport-reported failure is only logged, so the
attempt list is the whole observable effect. -/
def _send_text_to_chat (chat_id : Option String) (text : String) :
    List (String × String) :=
  match chat_id with
  | none => []
  | some c => if c == "" then [] else [(c, text)]

/-- the `sender_id` object of the event sender (its `open_id` may be
absent). -/
structure SenderId where
  open_id : Option String

/-- the event's `sender` object (its `sender_id` may be absent). -/
structure Sender where
  sender_id : Option SenderId

/-- the inbound message: its chat type, identifiers, and the
`json.loads` outcome of `message.content or ""` (see
`_extract_text`). -/
structure Message where
  chat_type : String
  chat_id : Option String
  message_id : Option String
  content : Option PyValue

/-- the `data.event` object: its message and sender may each be
absent. -/
structure EventData where
  message : Option Message
  sender : Option Sender

/-- models `sender = event.sender.sender_id if event.sender and
event.sender.sender_id else None` followed by `sender.open_id if sender
else None` (src/main.py lines 130, 137, 172). -/
def senderOpenId (ev : EventData) : Option String :=
  match ev.sender with
  | none => none
  | some s =>
      match s.sender_id with
      | none => none
      | some sid => sid.open_id

/-- Python `f"... {x}"` on an optional string: `None` renders as the
text `None`. -/
def pyFormatOpt (v : Option String) : String :=
  match v with
  | none => "None"
  | some s => s

/-- what one `_handle_message_event` call produced: the heap after it,
the trigger payload the script was run with (when one was), the
script's return or raised exception, the ordered event trace, and which
of the two `except` branches logged. -/
structure HandlerOutput where
  heap : Heap
  ranWith : Option Trigger
  scriptResult : Option (Except PyErr (Int × String × String))
  events : List REvent
  loggedTimeout : Bool
  loggedError : Bool

/-- a handler return that did not reach `_run_script`. -/
def noRun (h : Heap) : HandlerOutput := ⟨h, none, none, [], false, false⟩

/-- models `_handle_message_event(data)` (src/main.py lines 124-193):
reject when the event or message is absent; for a non-group chat,
extract a text preview for the debug log and return; otherwise extract
the text, reject when it is falsy, search the compiled pattern, reject
on no match, and on a match run the script with the notify payload and
an `on_started` callback bound to `_send_text_to_chat(message.chat_id,
f"Executing update script triggered by message {message.message_id}")`.
A `TimeoutExpired` or any other exception from `_run_script` is caught
and logged; errors raised by `_extract_text` or by searching a
non-string text are not caught and propagate. -/
def _handle_message_event (pat : CPat) (proc : ProcBehavior)
    (h : Heap) (environRef : Nat) (data : Option EventData) :
    Except PyErr HandlerOutput :=
  match data with
  | none => .ok (noRun h)
  | some ev =>
      match ev.message with
      | none => .ok (noRun h)
      | some msg =>
          if msg.chat_type ≠ "group" then
            match _extract_text msg.content with
            | .error e => .error e
            | .ok _ => .ok (noRun h)
          else
            match _extract_text msg.content with
            | .error e => .error e
            | .ok textVal =>
                if !pyTruthy textVal then .ok (noRun h)
                else
                  match textVal with
                  | .str t =>
                      match pySearch pat t with
                      | none => .ok (noRun h)
                      | some m =>
                          let trigger : Trigger :=
                            ⟨msg.message_id, msg.chat_id, senderOpenId ev,
                             some t, some m⟩
                          let startText :=
                            "Executing update script triggered by message " ++
                              pyFormatOpt msg.message_id
                          let sends := _send_text_to_chat msg.chat_id startText
                          let out := _run_script trigger (some sends) h
                            environRef proc
                          match out.result with
                          | .error .timeoutExpired =>
                              .ok ⟨out.heap, some trigger, some out.result,
                                   out.events, true, false⟩
                          | .error e =>
                              .ok ⟨out.heap, some trigger, some (.error e),
                                   out.events, false, true⟩
                          | .ok r =>
                              .ok ⟨out.heap, some trigger, some (.ok r),
                                   out.events, false, false⟩
                  | _ => .error .typeError

/-!
The dotenv loader `_load_dotenv` (src/main.py lines 13-34).  Python's
string methods are modelled character-exactly on `List Char`
(`str.strip()` with ASCII whitespace, `str.split("=", 1)`,
`str.startswith`).
-/

/-- ASCII whitespace, as stripped by `str.strip()` on the inputs the
claims exercise. -/
def pyStrip (s : String) : String :=
  String.mk (((s.data.dropWhile pyIsSpace).reverse.dropWhile pyIsSpace).reverse)

/-- models `s.startswith(pre)`. -/
def pyStartsWith (s pre : String) : Bool :=
  pre.data.isPrefixOf s.data

/-- models `line.split("=", 1)` when `"=" in line`: the part before the
first `=` and the part after it. -/
def splitOnceEq (s : String) : String × String :=
  (String.mk (s.data.takeWhile (fun c => !(c == '='))),
   String.mk ((s.data.dropWhile (fun c => !(c == '='))).drop 1))

/-- models one iteration of the `_load_dotenv` line loop (src/main.py
lines 18-34): strip the line; skip blank lines and comments; drop a
leading `export `; skip lines without `=`; split at the first `=`,
strip key and value; strip one layer of matching quotes; then
`os.environ.setdefault(key, value)`. -/
def _process_line (env : EnvMap) (raw_line : String) : EnvMap :=
  let line := pyStrip raw_line
  if line == "" then env
  else if pyStartsWith line "#" then env
  else
    let line :=
      if pyStartsWith line "export " then pyStrip (String.mk (line.data.drop 7))
      else line
    if !(line.data.contains '=') then env
    else
      let kv := splitOnceEq line
      let key := pyStrip kv.1
      let value := pyStrip kv.2
      let value :=
        if !(value == "") ∧ value.data.headD ' ' = value.data.getLastD ' ' ∧
            (value.data.headD ' ' = '"' ∨ value.data.headD ' ' = '\'') then
          String.mk ((value.data.drop 1).dropLast)
        else value
      setdefault env key value

/-- models `_load_dotenv(path)` (src/main.py lines 13-34) at its
filesystem boundary: `exists_` is whether `os.path.exists(path)` holds
and `fileLines` are the lines of the file; `env` is `os.environ` on
entry and the result is `os.environ` after the call. -/
def _load_dotenv (exists_ : Bool) (fileLines : List String) (env : EnvMap) :
    EnvMap :=
  if exists_ then fileLines.foldl _process_line env else env

/-!
Startup validation `_validate_env` and `main` (src/main.py lines
203-236).
-/

/-- the startup configuration the validator reads (the module-level
`os.getenv` results; an unset variable reads as the empty-string
default). -/
structure Config where
  FEISHU_APP_ID : String
  FEISHU_APP_SECRET : String
  SCRIPT_COMMAND : String

/-- models `", ".join(missing)`. -/
def commaJoin : List String → String
  | [] => ""
  | [x] => x
  | x :: xs => x ++ ", " ++ commaJoin xs

/-- the `missing` list built by `_validate_env` (src/main.py lines
204-210), in the order the source appends. -/
def missingKeys (c : Config) : List String :=
  (if c.FEISHU_APP_ID = "" then ["FEISHU_APP_ID"] else []) ++
    (if c.FEISHU_APP_SECRET = "" then ["FEISHU_APP_SECRET"] else []) ++
      (if c.SCRIPT_COMMAND = "" then ["SCRIPT_COMMAND"] else [])

/-- models `_validate_env()` (src/main.py lines 203-212): raises one
`RuntimeError` naming every missing key when any required setting is
empty. -/
def _validate_env (c : Config) : Except String Unit :=
  if missingKeys c = [] then .ok ()
  else
    .error ("Missing required environment variables: " ++
      commaJoin (missingKeys c))

/-- models `main()` (src/main.py lines 215-236) up to its serving
boundary (the name `main` itself is reserved by Lean): `_validate_env`
runs first and a raised error propagates, so the process never reaches
`ws_client.start()`; `.ok ()` marks that the long-connection client was
started (serving events). -/
def main' (c : Config) : Except String Unit :=
  match _validate_env c with
  | .error e => .error e
  | .ok () => .ok ()

/-!
Helper lemmas about environment maps and the heap.
-/

theorem envLookup_envSet_self (e : EnvMap) (k v : String) :
    envLookup (envSet e k v) k = some v := by
  induction e with
  | nil => simp [envSet, envLookup]
  | cons hd tl ih =>
      obtain ⟨k', v'⟩ := hd
      by_cases hk : k' = k <;> simp [envSet, envLookup, hk, ih]

theorem envLookup_envSet_ne (e : EnvMap) (k k' v : String) (hne : k' ≠ k) :
    envLookup (envSet e k' v) k = envLookup e k := by
  induction e with
  | nil => simp [envSet, envLookup, hne]
  | cons hd tl ih =>
      obtain ⟨k'', v''⟩ := hd
      by_cases hk : k'' = k' <;>
        by_cases hk2 : k'' = k <;>
          simp_all [envSet, envLookup]

theorem envLookup_append_left (e₁ e₂ : EnvMap) (k v : String)
    (h : envLookup e₁ k = some v) : envLookup (e₁ ++ e₂) k = some v := by
  induction e₁ with
  | nil => simp [envLookup] at h
  | cons hd tl ih =>
      obtain ⟨k', v'⟩ := hd
      by_cases hk : k' = k <;> simp_all [envLookup]

theorem envLookup_setdefault (e : EnvMap) (k k' v v' : String)
    (h : envLookup e k = some v) :
    envLookup (setdefault e k' v') k = some v := by
  unfold setdefault
  cases hl : envLookup e k' with
  | some w => exact h
  | none => exact envLookup_append_left _ _ _ _ h

theorem storeGet_append_self (l : List EnvMap) (d : EnvMap) :
    storeGet (l ++ [d]) l.length = d := by
  induction l with
  | nil => rfl
  | cons e l ih => simpa [storeGet] using ih

theorem storeGet_append_lt (l : List EnvMap) (d : EnvMap) (r : Nat)
    (h : r < l.length) : storeGet (l ++ [d]) r = storeGet l r := by
  induction l generalizing r with
  | nil => simp at h
  | cons e l ih =>
      cases r with
      | zero => rfl
      | succ r => exact ih r (by simpa using h)

theorem storeSet_length (l : List EnvMap) (r : Nat) (d : EnvMap) :
    (storeSet l r d).length = l.length := by
  induction l generalizing r with
  | nil => rfl
  | cons e l ih =>
      cases r with
      | zero => rfl
      | succ r => simpa [storeSet] using ih r

theorem storeGet_storeSet_self (l : List EnvMap) (r : Nat) (d : EnvMap)
    (h : r < l.length) : storeGet (storeSet l r d) r = d := by
  induction l generalizing r with
  | nil => simp at h
  | cons e l ih =>
      cases r with
      | zero => rfl
      | succ r => exact ih r (by simpa using h)

theorem storeGet_storeSet_ne (l : List EnvMap) (r r' : Nat) (d : EnvMap)
    (h : r ≠ r') : storeGet (storeSet l r' d) r = storeGet l r := by
  induction l generalizing r r' with
  | nil => rfl
  | cons e l ih =>
      cases r' with
      | zero =>
          cases r with
          | zero => exact absurd rfl h
          | succ r => rfl
      | succ r' =>
          cases r with
          | zero => rfl
          | succ r => exact ih r r' (by omega)

theorem heapGet_heapSet_self (h : Heap) (r : Nat) (k v : String)
    (hr : r < h.store.length) :
    heapGet (heapSet h r k v) r = envSet (heapGet h r) k v :=
  storeGet_storeSet_self _ _ _ hr

theorem heapSet_length (h : Heap) (r : Nat) (k v : String) :
    (heapSet h r k v).store.length = h.store.length :=
  storeSet_length _ _ _

theorem heapGet_heapSet_ne (h : Heap) (r r' : Nat) (k v : String)
    (hne : r ≠ r') : heapGet (heapSet h r' k v) r = heapGet h r :=
  storeGet_storeSet_ne _ _ _ _ hne

/-- the environment handed to the child process is the copy of
`os.environ` with the five `TRIGGER_*` assignments applied in source
order. -/
theorem run_script_childEnv (trigger : Trigger)
    (on_started : Option (List (String × String))) (h : Heap)
    (environRef : Nat) (proc : ProcBehavior) :
    (_run_script trigger on_started h environRef proc).childEnv =
      envSet (envSet (envSet (envSet (envSet (heapGet h environRef)
        "TRIGGER_TEXT" (pyStrOr trigger.text))
        "TRIGGER_CHAT_ID" (pyStrOr trigger.chat_id))
        "TRIGGER_SENDER_ID" (pyStrOr trigger.sender_id))
        "TRIGGER_MESSAGE_ID" (pyStrOr trigger.message_id))
        "TRIGGER_MATCHED_TEXT" (pyStrOr trigger.matched_text) := by
  cases hl : proc.launchOk <;> cases hf : proc.finishesInTime <;>
    simp only [_run_script, heapAllocCopy, hl, hf, Bool.false_eq_true,
      if_true, if_false, ite_true, ite_false] <;>
    rw [heapGet_heapSet_self, heapGet_heapSet_self, heapGet_heapSet_self,
        heapGet_heapSet_self, heapGet_heapSet_self] <;>
    simp [heapGet, storeGet_append_self, heapSet, storeSet_length,
      List.length_append, Nat.lt_succ_self]

/-- the heap cell of `os.environ` itself is untouched by
`_run_script`. -/
theorem run_script_heap_frame (trigger : Trigger)
    (on_started : Option (List (String × String))) (h : Heap)
    (environRef : Nat) (proc : ProcBehavior)
    (href : environRef < h.store.length) :
    heapGet (_run_script trigger on_started h environRef proc).heap environRef =
      heapGet h environRef := by
  have hne : environRef ≠ h.store.length := Nat.ne_of_lt href
  cases hl : proc.launchOk <;> cases hf : proc.finishesInTime <;>
    simp only [_run_script, heapAllocCopy, hl, hf, Bool.false_eq_true,
      if_true, if_false, ite_true, ite_false] <;>
    rw [heapGet_heapSet_ne _ _ _ _ _ hne, heapGet_heapSet_ne _ _ _ _ _ hne,
        heapGet_heapSet_ne _ _ _ _ _ hne, heapGet_heapSet_ne _ _ _ _ _ hne,
        heapGet_heapSet_ne _ _ _ _ _ hne] <;>
    simp [heapGet, storeGet_append_lt _ _ _ href]

/-!
Claim theorems.
-/

/-- C4: for every Trigger Executor call whose process launch succeeds
and which is given an `on_started` callback (as the program's only call
site does), the callback is invoked exactly once, after the child
process has been spawned and strictly before the executor begins
waiting on process completion — hence strictly before `_run_script`
returns, whether it ends by success or by timeout. -/
theorem on_started_exactly_once_before_wait (trigger : Trigger)
    (cb : List (String × String)) (h : Heap) (environRef : Nat)
    (proc : ProcBehavior) (hlaunch : proc.launchOk = true) :
    ∃ tail,
      (_run_script trigger (some cb) h environRef proc).events =
        REvent.spawned :: REvent.onStartedCall ::
          (cb.map (fun p => REvent.sendMsg p.1 p.2) ++
            REvent.waitBegin :: tail) ∧
      REvent.onStartedCall ∉ cb.map (fun p => REvent.sendMsg p.1 p.2) ∧
      REvent.onStartedCall ∉ tail := by
  cases hf : proc.finishesInTime
  · exact ⟨[REvent.timedOut, REvent.killed, REvent.drained],
      by simp [_run_script, hlaunch, hf], by simp, by decide⟩
  · exact ⟨[REvent.procExited],
      by simp [_run_script, hlaunch, hf], by simp, by decide⟩

/-- witness for the hypothesis of `on_started_exactly_once_before_wait`
at a concrete call. -/
theorem on_started_exactly_once_before_wait_witness :
    (ProcBehavior.mk true true 0 "" "").launchOk = true ∧
    ∃ tail,
      (_run_script ⟨some "om", some "oc", some "ou", some "t", some "m"⟩
          (some [("oc", "hi")]) ⟨[[]]⟩ 0 ⟨true, true, 0, "", ""⟩).events =
        REvent.spawned :: REvent.onStartedCall ::
          ([("oc", "hi")].map (fun p => REvent.sendMsg p.1 p.2) ++
            REvent.waitBegin :: tail) ∧
      REvent.onStartedCall ∉
        [("oc", "hi")].map (fun p => REvent.sendMsg p.1 p.2) ∧
      REvent.onStartedCall ∉ tail :=
  ⟨rfl, on_started_exactly_once_before_wait
    ⟨some "om", some "oc", some "ou", some "t", some "m"⟩ [("oc", "hi")]
    ⟨[[]]⟩ 0 ⟨true, true, 0, "", ""⟩ rfl⟩

/-- C5: for every trigger payload, the environment handed to the child
process binds all five TRIGGER_* keys, each to the corresponding
context field or to the empty string when that field is `None` or empty
(`x or ""`) — never omitted. -/
theorem child_env_always_has_trigger_keys (trigger : Trigger)
    (on_started : Option (List (String × String))) (h : Heap)
    (environRef : Nat) (proc : ProcBehavior) :
    envLookup (_run_script trigger on_started h environRef proc).childEnv
        "TRIGGER_TEXT" = some (pyStrOr trigger.text) ∧
    envLookup (_run_script trigger on_started h environRef proc).childEnv
        "TRIGGER_CHAT_ID" = some (pyStrOr trigger.chat_id) ∧
    envLookup (_run_script trigger on_started h environRef proc).childEnv
        "TRIGGER_SENDER_ID" = some (pyStrOr trigger.sender_id) ∧
    envLookup (_run_script trigger on_started h environRef proc).childEnv
        "TRIGGER_MESSAGE_ID" = some (pyStrOr trigger.message_id) ∧
    envLookup (_run_script trigger on_started h environRef proc).childEnv
        "TRIGGER_MATCHED_TEXT" = some (pyStrOr trigger.matched_text) := by
  refine ⟨?_, ?_, ?_, ?_, ?_⟩ <;> rw [run_script_childEnv]
  · rw [envLookup_envSet_ne _ _ _ _ (by decide),
        envLookup_envSet_ne _ _ _ _ (by decide),
        envLookup_envSet_ne _ _ _ _ (by decide),
        envLookup_envSet_ne _ _ _ _ (by decide), envLookup_envSet_self]
  · rw [envLookup_envSet_ne _ _ _ _ (by decide),
        envLookup_envSet_ne _ _ _ _ (by decide),
        envLookup_envSet_ne _ _ _ _ (by decide), envLookup_envSet_self]
  · rw [envLookup_envSet_ne _ _ _ _ (by decide),
        envLookup_envSet_ne _ _ _ _ (by decide), envLookup_envSet_self]
  · rw [envLookup_envSet_ne _ _ _ _ (by decide), envLookup_envSet_self]
  · rw [envLookup_envSet_self]

/-- C9: the executor never mutates the host process's environment: the
five TRIGGER_* assignments land on a freshly allocated copy that
becomes the child's environment, and the heap cell of `os.environ` is
the same after the call. -/
theorem run_script_host_env_unchanged (trigger : Trigger)
    (on_started : Option (List (String × String))) (h : Heap)
    (environRef : Nat) (proc : ProcBehavior)
    (href : environRef < h.store.length) :
    heapGet (_run_script trigger on_started h environRef proc).heap
        environRef = heapGet h environRef ∧
    (_run_script trigger on_started h environRef proc).childEnv =
      envSet (envSet (envSet (envSet (envSet (heapGet h environRef)
        "TRIGGER_TEXT" (pyStrOr trigger.text))
        "TRIGGER_CHAT_ID" (pyStrOr trigger.chat_id))
        "TRIGGER_SENDER_ID" (pyStrOr trigger.sender_id))
        "TRIGGER_MESSAGE_ID" (pyStrOr trigger.message_id))
        "TRIGGER_MATCHED_TEXT" (pyStrOr trigger.matched_text) :=
  ⟨run_script_heap_frame trigger on_started h environRef proc href,
   run_script_childEnv trigger on_started h environRef proc⟩

/-- witness for the hypothesis of `run_script_host_env_unchanged` at a
concrete heap holding one host environment. -/
theorem run_script_host_env_unchanged_witness :
    0 < (Heap.mk [[("HOME", "/root")]]).store.length ∧
    (heapGet (_run_script ⟨some "om", some "oc", none, some "t", some "m"⟩
        none ⟨[[("HOME", "/root")]]⟩ 0 ⟨true, false, 0, "", ""⟩).heap 0 =
      heapGet ⟨[[("HOME", "/root")]]⟩ 0 ∧
    (_run_script ⟨some "om", some "oc", none, some "t", some "m"⟩
        none ⟨[[("HOME", "/root")]]⟩ 0 ⟨true, false, 0, "", ""⟩).childEnv =
      envSet (envSet (envSet (envSet (envSet
        (heapGet ⟨[[("HOME", "/root")]]⟩ 0)
        "TRIGGER_TEXT" (pyStrOr (some "t")))
        "TRIGGER_CHAT_ID" (pyStrOr (some "oc")))
        "TRIGGER_SENDER_ID" (pyStrOr none))
        "TRIGGER_MESSAGE_ID" (pyStrOr (some "om")))
        "TRIGGER_MATCHED_TEXT" (pyStrOr (some "m"))) :=
  ⟨by decide, run_script_host_env_unchanged
    ⟨some "om", some "oc", none, some "t", some "m"⟩ none
    ⟨[[("HOME", "/root")]]⟩ 0 ⟨true, false, 0, "", ""⟩ (by decide)⟩

/-- C8: a group message whose extracted text is the empty string is
rejected by the falsy-text guard before the pattern is ever searched,
so no process is spawned — for every configured pattern, including ones
that match the empty string. -/
theorem empty_text_rejected_before_search (pat : CPat) (proc : ProcBehavior)
    (h : Heap) (environRef : Nat) (ev : EventData) (msg : Message)
    (hmsg : ev.message = some msg) (hscope : msg.chat_type = "group")
    (hex : _extract_text msg.content = .ok (.str "")) :
    _handle_message_event pat proc h environRef (some ev) = .ok (noRun h) := by
  simp [_handle_message_event, hmsg, hscope, hex, pyTruthy]

/-- witness for the hypotheses of `empty_text_rejected_before_search`:
a concrete group message with content `{"text": ""}` and a configured
pattern (the compilation of the empty pattern) that does match the
empty string; still nothing runs and the event trace is empty. -/
theorem empty_text_rejected_before_search_witness :
    pySearch ⟨false, []⟩ "" = some "" ∧
    _extract_text (some (PyValue.obj [("text", PyValue.str "")])) =
      .ok (.str "") ∧
    _handle_message_event ⟨false, []⟩ ⟨true, true, 0, "", ""⟩ ⟨[[]]⟩ 0
        (some ⟨some ⟨"group", some "oc", some "om",
          some (PyValue.obj [("text", PyValue.str "")])⟩, none⟩) =
      .ok (noRun ⟨[[]]⟩) :=
  ⟨rfl, rfl,
   empty_text_rejected_before_search ⟨false, []⟩ ⟨true, true, 0, "", ""⟩
     ⟨[[]]⟩ 0
     ⟨some ⟨"group", some "oc", some "om",
       some (PyValue.obj [("text", PyValue.str "")])⟩, none⟩
     _ rfl rfl rfl⟩

/-- counterexample to C6 as stated: with the configured pattern being
the compilation of the empty pattern (`MATCH_PATTERN=""`), the empty
pattern's search matches the extracted text `""` of a group message,
yet the Event Filter produces no TriggerContext at all — the empty-text
guard rejects first. -/
theorem c6_empty_match_counterexample :
    re_compile "" = some ⟨false, []⟩ ∧
    pySearch ⟨false, []⟩ "" = some "" ∧
    (_handle_message_event ⟨false, []⟩ ⟨true, true, 0, "", ""⟩ ⟨[[]]⟩ 0
        (some ⟨some ⟨"group", some "c1", some "m1",
          some (PyValue.obj [("text", PyValue.str "")])⟩, none⟩)).map
      (fun o => o.ranWith) = .ok none :=
  ⟨rfl, rfl, rfl⟩

/-- C6 (amended with nonempty extracted text): for every group message
whose extracted text is nonempty and matched by the unanchored search
of the configured pattern, the handler runs the script with a trigger
payload whose matched_text is exactly the span that search returned —
the first (leftmost) match span over the extracted text. -/
theorem handler_matched_text_is_first_span (pat : CPat)
    (proc : ProcBehavior) (h : Heap) (environRef : Nat) (ev : EventData)
    (msg : Message) (t m : String)
    (hmsg : ev.message = some msg) (hscope : msg.chat_type = "group")
    (hex : _extract_text msg.content = .ok (.str t)) (ht : t ≠ "")
    (hsearch : pySearch pat t = some m) :
    (_handle_message_event pat proc h environRef (some ev)).map
      (fun o => o.ranWith) =
      .ok (some ⟨msg.message_id, msg.chat_id, senderOpenId ev,
        some t, some m⟩) := by
  cases hl : proc.launchOk <;> cases hf : proc.finishesInTime <;>
    simp [_handle_message_event, hmsg, hscope, hex, hsearch, pyTruthy, ht,
      _run_script, hl, hf, Except.map]

/-- witness for the hypotheses of `handler_matched_text_is_first_span`
at a concrete matched group message. -/
theorem handler_matched_text_is_first_span_witness :
    _extract_text (some (PyValue.obj [("text", PyValue.str "hi")])) =
      .ok (.str "hi") ∧
    ("hi" : String) ≠ "" ∧
    pySearch ⟨false, [RTok.atom (RAtom.lit 'h')]⟩ "hi" = some "h" ∧
    (_handle_message_event ⟨false, [RTok.atom (RAtom.lit 'h')]⟩
        ⟨true, true, 0, "", ""⟩ ⟨[[]]⟩ 0
        (some ⟨some ⟨"group", some "c1", some "m1",
          some (PyValue.obj [("text", PyValue.str "hi")])⟩,
          some ⟨some ⟨some "ou_1"⟩⟩⟩)).map (fun o => o.ranWith) =
      .ok (some ⟨some "m1", some "c1", some "ou_1", some "hi", some "h"⟩) :=
  ⟨rfl, by decide, rfl,
   handler_matched_text_is_first_span ⟨false, [RTok.atom (RAtom.lit 'h')]⟩
     ⟨true, true, 0, "", ""⟩ ⟨[[]]⟩ 0
     ⟨some ⟨"group", some "c1", some "m1",
       some (PyValue.obj [("text", PyValue.str "hi")])⟩,
       some ⟨some ⟨some "ou_1"⟩⟩⟩
     _ "hi" "h" rfl rfl rfl (by decide) rfl⟩

/-- C3: when the launched process does not complete within the timeout,
`_run_script` raises `TimeoutExpired` to the caller after killing the
process and draining (discarding) its remaining output — the trace ends
`timedOut, killed, drained` — the orchestrating handler logs the
timeout and continues, and no chat notification is attempted for the
timeout itself: every send attempt in the trace is the start
notification issued before the wait began. -/
theorem timeout_raises_after_kill_drain_no_notify (pat : CPat)
    (proc : ProcBehavior) (h : Heap) (environRef : Nat) (ev : EventData)
    (msg : Message) (t m : String)
    (hmsg : ev.message = some msg) (hscope : msg.chat_type = "group")
    (hex : _extract_text msg.content = .ok (.str t)) (ht : t ≠ "")
    (hsearch : pySearch pat t = some m)
    (hlaunch : proc.launchOk = true)
    (hto : proc.finishesInTime = false) :
    (_handle_message_event pat proc h environRef (some ev)).map
        (fun o => o.scriptResult) =
      .ok (some (.error PyErr.timeoutExpired)) ∧
    (_handle_message_event pat proc h environRef (some ev)).map
        (fun o => o.loggedTimeout) = .ok true ∧
    (_handle_message_event pat proc h environRef (some ev)).map
        (fun o => o.events) =
      .ok (REvent.spawned :: REvent.onStartedCall ::
        ((_send_text_to_chat msg.chat_id
            ("Executing update script triggered by message " ++
              pyFormatOpt msg.message_id)).map
          (fun p => REvent.sendMsg p.1 p.2) ++
          [REvent.waitBegin, REvent.timedOut, REvent.killed,
           REvent.drained])) ∧
    ∀ c txt,
      REvent.sendMsg c txt ∈
        (REvent.spawned :: REvent.onStartedCall ::
          ((_send_text_to_chat msg.chat_id
              ("Executing update script triggered by message " ++
                pyFormatOpt msg.message_id)).map
            (fun p => REvent.sendMsg p.1 p.2) ++
            [REvent.waitBegin, REvent.timedOut, REvent.killed,
             REvent.drained])) →
        (c, txt) ∈ _send_text_to_chat msg.chat_id
          ("Executing update script triggered by message " ++
            pyFormatOpt msg.message_id) := by
  refine ⟨?_, ?_, ?_, ?_⟩
  · simp [_handle_message_event, hmsg, hscope, hex, hsearch, pyTruthy, ht,
      _run_script, hlaunch, hto, Except.map]
  · simp [_handle_message_event, hmsg, hscope, hex, hsearch, pyTruthy, ht,
      _run_script, hlaunch, hto, Except.map]
  · simp [_handle_message_event, hmsg, hscope, hex, hsearch, pyTruthy, ht,
      _run_script, hlaunch, hto, Except.map]
  · intro c txt hmem
    simp only [List.mem_cons, List.mem_append, List.mem_map] at hmem
    rcases hmem with hh | hh | ⟨p, hp, he⟩ | hh
    · exact absurd hh (by simp)
    · exact absurd hh (by simp)
    · obtain ⟨h1, h2⟩ := REvent.sendMsg.inj he
      subst h1
      subst h2
      simpa using hp
    · exact absurd hh (by simp)

/-- witness for the hypotheses of
`timeout_raises_after_kill_drain_no_notify` at a concrete matched group
message whose process exceeds the timeout. -/
theorem timeout_raises_after_kill_drain_no_notify_witness :
    (ProcBehavior.mk true false 0 "" "").launchOk = true ∧
    (ProcBehavior.mk true false 0 "" "").finishesInTime = false ∧
    (_handle_message_event ⟨false, [RTok.atom (RAtom.lit 'h')]⟩
        ⟨true, false, 0, "", ""⟩ ⟨[[]]⟩ 0
        (some ⟨some ⟨"group", some "c1", some "m1",
          some (PyValue.obj [("text", PyValue.str "hi")])⟩, none⟩)).map
      (fun o => o.scriptResult) = .ok (some (.error PyErr.timeoutExpired)) :=
  ⟨rfl, rfl,
   (timeout_raises_after_kill_drain_no_notify
     ⟨false, [RTok.atom (RAtom.lit 'h')]⟩ ⟨true, false, 0, "", ""⟩ ⟨[[]]⟩ 0
     ⟨some ⟨"group", some "c1", some "m1",
       some (PyValue.obj [("text", PyValue.str "hi")])⟩, none⟩
     _ "hi" "h" rfl rfl rfl (by decide) rfl rfl rfl).1⟩

/-- C1 (the code diverges from this claim): the source's default
`MATCH_PATTERN` is the raw string `r"^/run\\s+.+"`, whose doubled
backslash compiles to a pattern demanding a literal backslash, then one
or more letters `s`, after `/run`.  Its search therefore REJECTS the
text "/run build now", while the pattern the spec states
(`^/run\s+.+`, whitespace after `/run`) accepts it with matchedText
"/run build now"; under the default configuration a group message
"/run build now" triggers nothing. -/
theorem default_pattern_rejects_run_build_now :
    re_compile MATCH_PATTERN = some defaultCompiled ∧
    pySearch defaultCompiled "/run build now" = none ∧
    (re_compile specDefaultPattern).map
      (fun p => pySearch p "/run build now") = some (some "/run build now") ∧
    (_handle_message_event defaultCompiled ⟨true, true, 0, "", ""⟩ ⟨[[]]⟩ 0
        (some ⟨some ⟨"group", some "c1", some "m1",
          some (PyValue.obj [("text", PyValue.str "/run build now")])⟩,
          none⟩)).map (fun o => o.ranWith) = .ok none :=
  ⟨by decide, by decide, by decide, rfl⟩

/-- counterexample to C2 as stated: the payload `"5"` is valid JSON but
not an object — `json.loads` yields the integer 5 and `(5).get(...)`
raises an AttributeError, so extraction errors instead of returning
empty text. -/
theorem extract_text_raises_on_nonobject :
    _extract_text (some (PyValue.num 5)) = .error PyErr.attributeError := rfl

/-- C2 (amended to payloads of the expected shape): extraction never
raises when the raw payload is empty, fails JSON parsing, or parses to
a JSON object — it returns the object's `text` field, or empty text
when the payload is absent/unparsable — and, being a pure function of
the parse outcome, is deterministic on malformed payloads. -/
theorem extract_text_total_on_expected (content : Option PyValue)
    (h : content = none ∨ ∃ kvs, content = some (PyValue.obj kvs)) :
    ∃ v, _extract_text content = .ok v ∧
      (content = none → v = .str "") ∧
      ∀ kvs, content = some (PyValue.obj kvs) →
        v = pyDictGet kvs "text" (.str "") := by
  rcases h with h | ⟨kvs, h⟩ <;> subst h
  · exact ⟨.str "", rfl, fun _ => rfl, by simp⟩
  · refine ⟨pyDictGet kvs "text" (.str ""), rfl, by simp, ?_⟩
    intro kvs' heq
    injection heq with h'
    injection h' with h''
    subst h''
    rfl

/-- witness for the hypothesis of `extract_text_total_on_expected` at
the empty/unparsable payload. -/
theorem extract_text_total_on_expected_witness :
    ((none : Option PyValue) = none ∨
      ∃ kvs, (none : Option PyValue) = some (PyValue.obj kvs)) ∧
    ∃ v, _extract_text none = .ok v ∧
      ((none : Option PyValue) = none → v = .str "") ∧
      ∀ kvs, (none : Option PyValue) = some (PyValue.obj kvs) →
        v = pyDictGet kvs "text" (.str "") :=
  ⟨Or.inl rfl, extract_text_total_on_expected none (Or.inl rfl)⟩

/-- C7: when any required setting is missing (empty), `main` raises the
validator's combined error before the serving boundary is reached, and
the `missing` list the message joins contains exactly the missing
required keys. -/
theorem validate_env_fails_fast (c : Config)
    (h : c.FEISHU_APP_ID = "" ∨ c.FEISHU_APP_SECRET = "" ∨
      c.SCRIPT_COMMAND = "") :
    main' c = .error ("Missing required environment variables: " ++
      commaJoin (missingKeys c)) ∧
    ∀ k, k ∈ missingKeys c ↔
      ((k = "FEISHU_APP_ID" ∧ c.FEISHU_APP_ID = "") ∨
       (k = "FEISHU_APP_SECRET" ∧ c.FEISHU_APP_SECRET = "") ∨
       (k = "SCRIPT_COMMAND" ∧ c.SCRIPT_COMMAND = "")) := by
  have hne : missingKeys c ≠ [] := by
    rcases h with h | h | h <;> simp [missingKeys, h]
  constructor
  · simp [main', _validate_env, hne]
  · intro k
    by_cases h1 : c.FEISHU_APP_ID = "" <;>
      by_cases h2 : c.FEISHU_APP_SECRET = "" <;>
        by_cases h3 : c.SCRIPT_COMMAND = "" <;>
          simp [missingKeys, h1, h2, h3]

/-- witness for the hypothesis of `validate_env_fails_fast` at a
concrete configuration missing only the app id. -/
theorem validate_env_fails_fast_witness :
    (Config.mk "" "secret" "run.sh").FEISHU_APP_ID = "" ∧
    main' ⟨"", "secret", "run.sh"⟩ =
      .error "Missing required environment variables: FEISHU_APP_ID" :=
  ⟨rfl, (validate_env_fails_fast ⟨"", "secret", "run.sh"⟩ (Or.inl rfl)).1⟩

/-- one dotenv line never overwrites an existing binding. -/
theorem process_line_preserves (env : EnvMap) (line k v : String)
    (h : envLookup env k = some v) :
    envLookup (_process_line env line) k = some v := by
  unfold _process_line
  dsimp only
  repeat' split
  all_goals first
  | exact h
  | exact envLookup_setdefault _ _ _ _ _ h

/-- folding the line loop never overwrites an existing binding. -/
theorem foldl_process_preserves (lines : List String) :
    ∀ env k v, envLookup env k = some v →
      envLookup (lines.foldl _process_line env) k = some v := by
  induction lines with
  | nil => exact fun env k v h => h
  | cons l ls ih =>
      exact fun env k v h => ih _ _ _ (process_line_preserves _ _ _ _ h)

/-- C10: loading the dotenv file never overwrites an environment
variable already set in the process environment — every pre-existing
binding is unchanged, so a value from the file can take effect only for
a key that was absent. -/
theorem load_dotenv_keeps_existing (exists_ : Bool)
    (fileLines : List String) (env : EnvMap) (k v : String)
    (h : envLookup env k = some v) :
    envLookup (_load_dotenv exists_ fileLines env) k = some v := by
  unfold _load_dotenv
  split
  · exact foldl_process_preserves _ _ _ _ h
  · exact h

/-- witness for the hypothesis of `load_dotenv_keeps_existing`: a file
line assigning a new value to an already-set key leaves the old value
in place. -/
theorem load_dotenv_keeps_existing_witness :
    envLookup [("K", "old")] "K" = some "old" ∧
    envLookup (_load_dotenv true ["K=new"] [("K", "old")]) "K" =
      some "old" :=
  ⟨rfl, load_dotenv_keeps_existing true ["K=new"] [("K", "old")] "K" "old"
    rfl⟩
